import Mathlib

/-!
Shallow embedding of the task-management creation pipeline
(`src/result-sample/task_management`), a four-layer Python service whose core is
an input-validation / sanitization pipeline over one string field.

Strings are modelled as `List Char` (`Str`).  Wall-clock `datetime` values are
modelled as `Nat` microseconds since an arbitrary epoch; the nondeterministic
clock reads and `uuid.uuid4()` draws taken by the code are passed in explicitly
through an `Env` record.  Python exceptions are modelled with `Except`; the
domain exception hierarchy of `domain/exceptions/domain_exceptions.py` is the
inductive `DomainExc`, and raw Python-level exceptions (`TypeError`,
`ValueError`) are `PyErr`.

The regular expressions used by the services are small and backtracking-free in
effect; each is embedded as an executable scanner over `List Char` whose
at-a-position matcher mirrors the (deterministic) match extent of the Python
pattern, and `re.sub` is embedded as a fuel-indexed left-to-right non-overlapping
substitution (`pySub`).
-/

namespace TaskMgmt

/-- Strings of the Python program, as lists of characters. -/
abbrev Str := List Char

/-- Coerce a Lean string literal to the embedding's string type. -/
def strL (s : String) : Str := s.data

/-- ASCII lower-casing of one character.  This embeds Python's `str.lower` /
`re.IGNORECASE` as they act on the ASCII pattern characters used by this
program (all its patterns and keyword lists are ASCII). -/
def lowerChar (c : Char) : Char :=
  if 65 ≤ c.toNat ∧ c.toNat ≤ 90 then Char.ofNat (c.toNat + 32) else c

/-- Python whitespace (`\s` of the `re` module / `str.isspace`): ASCII
whitespace, the information-separator controls, and the Unicode space
characters. -/
def isPySpace (c : Char) : Bool :=
  let n := c.toNat
  (9 ≤ n && n ≤ 13) || n == 32 || (28 ≤ n && n ≤ 31) || n == 0x85 || n == 0xA0 ||
  n == 0x1680 || (0x2000 ≤ n && n ≤ 0x200A) || n == 0x2028 || n == 0x2029 ||
  n == 0x202F || n == 0x205F || n == 0x3000

/-- Python word character (`\w`), restricted to the ASCII range
`[a-zA-Z0-9_]`.  (Python's `\w` also covers non-ASCII word characters; that
difference cannot change any statement below, because every use of `\w` in the
program sits inside a pattern that additionally requires a `=` or quote
character, which the relevant strings are shown not to contain.) -/
def isPyWord (c : Char) : Bool :=
  (65 ≤ c.toNat && c.toNat ≤ 90) || (97 ≤ c.toNat && c.toNat ≤ 122) ||
  (48 ≤ c.toNat && c.toNat ≤ 57) || c == '_'

/-- A quote character of the pattern class `["\x27]`. -/
def isQuote (c : Char) : Bool := c == '"' || c == '\x27'

/-- The STRICT sanitization allow-list of
`TaskSecurityDomainService._sanitize_special_chars`: the complement of
`[^a-zA-Z0-9぀-ゟ゠-ヿ一-龯\s\.\-_,!?()（）]`. -/
def isAllowedStrict (c : Char) : Bool :=
  let n := c.toNat
  (65 ≤ n && n ≤ 90) || (97 ≤ n && n ≤ 122) || (48 ≤ n && n ≤ 57) ||
  (0x3040 ≤ n && n ≤ 0x309F) || (0x30A0 ≤ n && n ≤ 0x30FF) ||
  (0x4E00 ≤ n && n ≤ 0x9FAF) || isPySpace c ||
  c == '.' || c == '-' || c == '_' || c == ',' || c == '!' || c == '?' ||
  c == '(' || c == ')' || c == '（' || c == '）'

/-- Hexadecimal digit (for `uuid.UUID` parsing). -/
def isHexChar (c : Char) : Bool :=
  (48 ≤ c.toNat && c.toNat ≤ 57) || (97 ≤ c.toNat && c.toNat ≤ 102) ||
  (65 ≤ c.toNat && c.toNat ≤ 70)

/-- Python `str.strip()` with no argument: drop leading and trailing
whitespace. -/
def pyStrip (l : Str) : Str :=
  ((l.dropWhile isPySpace).reverse.dropWhile isPySpace).reverse

/-- Python `str.strip(chars)`: drop leading and trailing characters from the
given set. -/
def pyStripChars (cs : List Char) (l : Str) : Str :=
  ((l.dropWhile (cs.contains ·)).reverse.dropWhile (cs.contains ·)).reverse

/-- Python `str.lower()` (ASCII fragment, see `lowerChar`). -/
def lowerStr (l : Str) : Str := l.map lowerChar

/-- Escape one character exactly as Python's `html.escape` (with its default
`quote=True`) rewrites it.  `html.escape` performs five sequential
`str.replace` passes (`&` first); since no replacement text contains a
character replaced by a later pass, the composite equals this per-character
map. -/
def escapeChar (c : Char) : Str :=
  if c = '&' then strL "&amp;"
  else if c = '<' then strL "&lt;"
  else if c = '>' then strL "&gt;"
  else if c = '"' then strL "&quot;"
  else if c = '\x27' then strL "&#x27;"
  else [c]

/-- Python `html.escape(s)` with `quote=True`. -/
def htmlEscape : Str → Str
  | [] => []
  | c :: t => escapeChar c ++ htmlEscape t

/-- Does `test` hold at some position of the string (i.e. on some suffix)?
This is the search loop of `re.search`/`re.sub`: try each position left to
right. -/
def scanB (test : Str → Bool) : Str → Bool
  | [] => test []
  | c :: r => test (c :: r) || scanB test r

/-- Exact (case-sensitive) prefix test, first argument the pattern. -/
def hasLeadX : Str → Str → Bool
  | [], _ => true
  | _ :: _, [] => false
  | p :: ps, c :: cs => (c == p) && hasLeadX ps cs

/-- Case-insensitive prefix test, first argument the pattern. -/
def hasLeadCI : Str → Str → Bool
  | [], _ => true
  | _ :: _, [] => false
  | p :: ps, c :: cs => (lowerChar c == lowerChar p) && hasLeadCI ps cs

/-- Case-sensitive prefix removal: `some` of the remainder on a match. -/
def dropLeadX : Str → Str → Option Str
  | [], l => some l
  | _ :: _, [] => none
  | p :: ps, c :: cs => if c == p then dropLeadX ps cs else none

/-- Case-insensitive prefix removal: `some` of the remainder on a match. -/
def dropLeadCI : Str → Str → Option Str
  | [], l => some l
  | _ :: _, [] => none
  | p :: ps, c :: cs => if lowerChar c == lowerChar p then dropLeadCI ps cs else none

/-- Python's substring containment `pat in s` (case-sensitive). -/
def containsSub (pat l : Str) : Bool := scanB (hasLeadX pat) l

/-- `re.search` of a case-insensitive literal pattern. -/
def searchLitCI (pat l : Str) : Bool := scanB (hasLeadCI pat) l

/-! ### At-a-position matchers for the program's regular expressions

Each matcher decides whether the pattern matches starting at the head of the
given string and, where a replacement needs it, returns the remainder after the
matched extent.  Backtracking never changes the extent for these patterns (each
greedy/lazy quantifier is followed by a character its class excludes), so the
extents are deterministic. -/

/-- Consume `[^>]*>`: skip to the first `>` and consume it.  (The lazy variant
`.*?>` used in `TaskName._sanitize_input` consumes exactly the same extent,
since both stop at the first `>`.) -/
def tagCloseAfter : Str → Option Str
  | [] => none
  | c :: r => if c == '>' then some r else tagCloseAfter r

/-- Match `openTag[^>]*>` at the head, `openTag` given with its `<` (e.g.
`<script`), case-insensitively; return the remainder. -/
def matchOpenTagAt (openTag : Str) (l : Str) : Option Str :=
  match dropLeadCI openTag l with
  | none => none
  | some r => tagCloseAfter r

/-- Lazy `.*?pat` under `re.DOTALL`: find the nearest following occurrence of
the (case-insensitive) literal `pat` and return the remainder after it. -/
def lazyFindCI (pat : Str) : Str → Option Str
  | [] => none
  | c :: r =>
    match dropLeadCI pat (c :: r) with
    | some rest => some rest
    | none => lazyFindCI pat r

/-- Match `openTag[^>]*>.*?closeTag` (IGNORECASE, DOTALL) at the head; used for
the `<script...>...</script>` and `<iframe...>...</iframe>` removal patterns. -/
def matchBlockAt (openTag closeTag : Str) (l : Str) : Option Str :=
  match matchOpenTagAt openTag l with
  | none => none
  | some r => lazyFindCI closeTag r

/-- Match the literal `javascript:` (IGNORECASE) at the head. -/
def matchJsAt (l : Str) : Option Str := dropLeadCI (strL "javascript:") l

/-- After `on\w+\s*` has been consumed, require `=` and return the rest. -/
def eqSignAfter (l : Str) : Option Str :=
  match l.dropWhile isPySpace with
  | [] => none
  | c :: r => if c = '=' then some r else none

/-- Match `on\w+\s*=` (IGNORECASE) at the head; the validator's bare
event-handler pattern. -/
def matchOnAttrBareAt (l : Str) : Option Str :=
  match dropLeadCI (strL "on") l with
  | none => none
  | some r =>
    match r with
    | [] => none
    | c :: r₂ => if isPyWord c then eqSignAfter (r₂.dropWhile isPyWord) else none

/-- Consume `["\x27][^"\x27]*["\x27]` at the head. -/
def quotedAfter : Str → Option Str
  | [] => none
  | c :: r =>
    if isQuote c then
      match r.dropWhile (fun d => !(isQuote d)) with
      | [] => none
      | _ :: rest => some rest
    else none

/-- Match `on\w+\s*=\s*["\x27][^"\x27]*["\x27]` (IGNORECASE) at the head; the
sanitizer's quoted event-handler pattern. -/
def matchOnAttrQAt (l : Str) : Option Str :=
  match matchOnAttrBareAt l with
  | none => none
  | some r => quotedAfter (r.dropWhile isPySpace)

/-- Match `name\s*\(` (IGNORECASE) at the head, for `alert\s*\(` and
`eval\s*\(`. -/
def matchCallAt (name : Str) (l : Str) : Bool :=
  match dropLeadCI name l with
  | none => false
  | some r =>
    match r.dropWhile isPySpace with
    | c :: _ => c == '('
    | [] => false

/-- `\s+w`: one or more whitespace characters followed by the
case-insensitive literal `w`. -/
def spacesThenCI (w : Str) : Str → Bool
  | [] => false
  | c :: r => isPySpace c && (hasLeadCI w r || spacesThenCI w r)

/-- Match `w₁\s+w₂` (IGNORECASE) at the head, for the SQL keyword pairs. -/
def matchWordGapAt (w₁ w₂ : Str) (l : Str) : Bool :=
  match dropLeadCI w₁ l with
  | none => false
  | some r => spacesThenCI w₂ r

/-- Match `w₁\s*w₂` (IGNORECASE) at the head, for `credit\s*card` and
`social\s*security`. -/
def matchGap0At (w₁ w₂ : Str) (l : Str) : Bool :=
  match dropLeadCI w₁ l with
  | none => false
  | some r => hasLeadCI w₂ (r.dropWhile isPySpace)

/-- Match `--\s*$` at the head position: `--` followed by a tail that is all
whitespace (with no MULTILINE flag, `$` matches only at the end of the string
or before a terminating newline, both subsumed by an all-whitespace tail since
`\s` covers the newline). -/
def matchDashEndAt (l : Str) : Bool :=
  hasLeadX (strL "--") l && (l.drop 2).all isPySpace

/-- Match `(password|secret|token|key)\s*[:=]` for one alternative keyword. -/
def matchKeyValAt (w : Str) (l : Str) : Bool :=
  match dropLeadCI w l with
  | none => false
  | some r =>
    match r.dropWhile isPySpace with
    | c :: _ => c == ':' || c == '='
    | [] => false

/-! ### `re.sub` -/

/-- One left-to-right non-overlapping substitution pass, fuel-indexed: at each
position try the matcher; on a match emit the replacement and continue after
the matched extent, otherwise keep the character and advance.  The fuel
`l.length` suffices because every matcher below consumes at least one
character. -/
def subFuel (m : Str → Option Str) (repl : Str) : Nat → Str → Str
  | 0, l => l
  | _ + 1, [] => []
  | f + 1, c :: r =>
    match m (c :: r) with
    | some rest => repl ++ subFuel m repl f rest
    | none => c :: subFuel m repl f r

/-- `re.sub(pattern, repl, l)` for a pattern embedded by the at-matcher `m`. -/
def pySub (m : Str → Option Str) (repl : Str) (l : Str) : Str :=
  subFuel m repl l.length l

/-! ### Exceptions and enumerations -/

/-- Raw Python-level exceptions that escape library calls. -/
inductive PyErr
  | typeError
  | valueError
deriving DecidableEq, Repr

/-- The domain exception hierarchy of `domain_exceptions.py`.
`taskBusinessRule` models `TaskBusinessRuleViolationException`, a subclass of
`TaskValidationException` (so an `except TaskValidationException` clause also
catches it); `taskCreation` models `TaskCreationException` and its
`TaskFactoryException` subclass; `pyError` carries an escaping Python
exception. -/
inductive DomainExc
  | taskValidation (message : String) (violations : List String)
  | taskBusinessRule (message : String) (violations : List String)
  | taskSecurity (message : String) (threat_type : Option String)
  | taskCreation (message : String)
  | pyError (e : PyErr)
deriving DecidableEq, Repr

deriving instance DecidableEq for Except

/-- `str(e)` as used when an exception is wrapped into another message. -/
def DomainExc.message : DomainExc → String
  | .taskValidation m _ => m
  | .taskBusinessRule m _ => m
  | .taskSecurity m _ => m
  | .taskCreation m => m
  | .pyError .typeError =>
      "\x27>\x27 not supported between instances of \x27SecurityRiskLevel\x27 and \x27SecurityRiskLevel\x27"
  | .pyError .valueError => "microsecond must be in 0..999999"

/-- `ValidationSeverity` of `validation_result.py`. -/
inductive ValidationSeverity
  | LOW | MEDIUM | HIGH | CRITICAL
deriving DecidableEq, Repr

/-- `SecurityRiskLevel` of `security_result.py`: a plain (unordered) Python
`Enum`. -/
inductive SecurityRiskLevel
  | NONE | LOW | MEDIUM | HIGH | CRITICAL
deriving DecidableEq, Repr

/-- `SecurityAction` of `security_result.py`. -/
inductive SecurityAction
  | ALLOW | SANITIZE | REJECT | AUDIT
deriving DecidableEq, Repr

/-- `SanitizationPolicy` of `task_security_domain_service.py`. -/
inductive SanitizationPolicy
  | STRICT | MODERATE | LENIENT
deriving DecidableEq, Repr

/-! ### Validation domain service (`task_validation_domain_service.py`) -/

/-- `TaskCreationContext`.  `timestamp` holds the command timestamp (the code
stores its ISO string; no service ever reads it, only `user_id` is consulted),
`client_info` the platform/user-agent descriptor. -/
structure TaskCreationContext where
  user_id : Str
  timestamp : Option Nat
  client_info : String
  request_id : Option Str
deriving DecidableEq, Repr

/-- `ValidationViolation`. -/
structure ValidationViolation where
  rule_id : String
  message : String
  severity : ValidationSeverity
  field_name : String
deriving DecidableEq, Repr

/-- `ValidationResult` (the ephemeral `validated_at` wall-clock field, never
read by the program, is not modelled). -/
structure ValidationResult where
  is_valid : Bool
  violations : List ValidationViolation
deriving DecidableEq, Repr

/-- `ValidationResult.get_error_messages`. -/
def ValidationResult.get_error_messages (r : ValidationResult) : List String :=
  r.violations.map (·.message)

namespace TaskValidationDomainService

/-- `RESERVED_WORDS`. -/
def RESERVED_WORDS : List Str :=
  [strL "admin", strL "system", strL "root", strL "null", strL "undefined",
   strL "script", strL "alert", strL "eval", strL "function"]

/-- `_validate_basic_rules` (BR-001, BR-004).  An empty name returns
immediately; otherwise the whitespace-only and length checks both run. -/
def validate_basic_rules (task_name : Str) : List ValidationViolation :=
  if task_name = [] then
    [⟨"BR-001", "タスク名は必須です", .CRITICAL, "task_name"⟩]
  else
    (if pyStrip task_name = [] then
       [⟨"BR-001", "タスク名は必須です（空白のみは無効）", .CRITICAL, "task_name"⟩]
     else []) ++
    (if 100 < (pyStrip task_name).length then
       [⟨"BR-004",
         "タスク名は100文字以内で入力してください（現在: " ++
           toString (pyStrip task_name).length ++ "文字）",
         .HIGH, "task_name"⟩]
     else [])

/-- The validator's XSS pattern family:
`<script[^>]*>`, `javascript:`, `on\w+\s*=`, `<iframe[^>]*>`, `eval\s*\(`,
`alert\s*\(`, each searched case-insensitively. -/
def anyXssPattern (l : Str) : Bool :=
  scanB (fun s => (matchOpenTagAt (strL "<script") s).isSome) l ||
  searchLitCI (strL "javascript:") l ||
  scanB (fun s => (matchOnAttrBareAt s).isSome) l ||
  scanB (fun s => (matchOpenTagAt (strL "<iframe") s).isSome) l ||
  scanB (matchCallAt (strL "eval")) l ||
  scanB (matchCallAt (strL "alert")) l

/-- The validator's SQL pattern family: `union\s+select`, `drop\s+table`,
`insert\s+into`, `delete\s+from`, `update\s+set`, `--\s*$`, `\x27;`. -/
def anySqlPattern (l : Str) : Bool :=
  scanB (matchWordGapAt (strL "union") (strL "select")) l ||
  scanB (matchWordGapAt (strL "drop") (strL "table")) l ||
  scanB (matchWordGapAt (strL "insert") (strL "into")) l ||
  scanB (matchWordGapAt (strL "delete") (strL "from")) l ||
  scanB (matchWordGapAt (strL "update") (strL "set")) l ||
  scanB matchDashEndAt l ||
  searchLitCI (strL "\x27;") l

/-- `_validate_security_rules` (BR-005): one violation per matching family
(the loops break at the first matching pattern of each family). -/
def validate_security_rules (task_name : Str) : List ValidationViolation :=
  (if anyXssPattern task_name then
     [⟨"BR-005", "タスク名に許可されていない文字が含まれています", .CRITICAL, "task_name"⟩]
   else []) ++
  (if anySqlPattern task_name then
     [⟨"BR-005", "タスク名に許可されていない文字が含まれています", .CRITICAL, "task_name"⟩]
   else [])

/-- `INAPPROPRIATE_PATTERNS`: `(?i)(password|secret|token|key)\s*[:=]`,
`(?i)(credit\s*card|social\s*security)`, `(?i)(hack|crack|exploit)`. -/
def anyInappropriatePattern (l : Str) : Bool :=
  scanB (fun s =>
    matchKeyValAt (strL "password") s || matchKeyValAt (strL "secret") s ||
    matchKeyValAt (strL "token") s || matchKeyValAt (strL "key") s) l ||
  scanB (fun s =>
    matchGap0At (strL "credit") (strL "card") s ||
    matchGap0At (strL "social") (strL "security") s) l ||
  (searchLitCI (strL "hack") l || searchLitCI (strL "crack") l ||
   searchLitCI (strL "exploit") l)

/-- `_validate_business_rules`: one MEDIUM violation per reserved word
contained in the lowered, stripped name (no break), then at most one HIGH
violation for the inappropriate-content patterns (break at first). -/
def validate_business_rules (task_name : Str) : List ValidationViolation :=
  (RESERVED_WORDS.filterMap (fun w =>
     if containsSub w (pyStrip (lowerStr task_name)) then
       some ⟨"BR-RESERVED",
             "タスク名に予約語「" ++ String.mk w ++ "」は使用できません",
             .MEDIUM, "task_name"⟩
     else none)) ++
  (if anyInappropriatePattern task_name then
     [⟨"BR-CONTENT", "タスク名に不適切な内容が含まれている可能性があります", .HIGH, "task_name"⟩]
   else [])

/-- `_validate_context_rules`: the user id must be non-empty. -/
def validate_context_rules (ctx : TaskCreationContext) : List ValidationViolation :=
  if ctx.user_id = [] then
    [⟨"BR-CONTEXT-USER", "ユーザーIDが必要です", .HIGH, "user_id"⟩]
  else []

/-- `validate_task_creation`: concatenate the four sub-checks;
`is_valid` iff no violations. -/
def validate_task_creation (task_name : Str) (ctx : TaskCreationContext) :
    ValidationResult :=
  let violations :=
    validate_basic_rules task_name ++ validate_security_rules task_name ++
    validate_business_rules task_name ++ validate_context_rules ctx
  { is_valid := violations.length == 0, violations := violations }

end TaskValidationDomainService

/-! ### Security domain service (`task_security_domain_service.py`) -/

/-- `Modification` (sanitization change record). -/
structure Modification where
  original : Str
  modified : Str
  reason : String
deriving DecidableEq, Repr

/-- `SanitizedInput` (the ephemeral `sanitized_at` wall-clock field, never read
by the program, is not modelled). -/
structure SanitizedInput where
  clean_input : Str
  modifications : List Modification
  risk_level : SecurityRiskLevel
deriving DecidableEq, Repr

/-- `SecurityThreat`. -/
structure SecurityThreat where
  threat_type : String
  description : String
  risk_level : SecurityRiskLevel
deriving DecidableEq, Repr

/-- `SecurityCheckResult` (the ephemeral `checked_at` field is not modelled). -/
structure SecurityCheckResult where
  is_passed : Bool
  detected_threats : List SecurityThreat
  recommended_action : SecurityAction
deriving DecidableEq, Repr

/-- `SecurityCheckResult.get_critical_threats`. -/
def SecurityCheckResult.get_critical_threats (r : SecurityCheckResult) :
    List SecurityThreat :=
  r.detected_threats.filter (fun t => t.risk_level == .CRITICAL)

namespace TaskSecurityDomainService

/-- `_sanitize_html`: HTML-escape, recording a modification if anything
changed. -/
def sanitize_html (l : Str) : Str × List Modification :=
  let sanitized := htmlEscape l
  if sanitized ≠ l then (sanitized, [⟨l, sanitized, "HTMLエスケープ処理"⟩])
  else (sanitized, [])

/-- The reason string recorded for a fired dangerous-script pattern,
`"危険なスクリプトパターンの除去: " ++` the pattern's source text. -/
def scriptReason (pat : String) : String :=
  "危険なスクリプトパターンの除去: " ++ pat

/-- `_sanitize_scripts`: the four dangerous patterns applied in order, each a
full `re.sub` pass recorded as a modification when it changed the text. -/
def sanitize_scripts (l : Str) : Str × List Modification :=
  let s₁ := pySub (matchBlockAt (strL "<script") (strL "</script>")) [] l
  let m₁ : List Modification :=
    if s₁ ≠ l then [⟨l, s₁, scriptReason "<script[^>]*>.*?</script>"⟩] else []
  let s₂ := pySub matchJsAt (strL "text:") s₁
  let m₂ : List Modification :=
    if s₂ ≠ s₁ then [⟨s₁, s₂, scriptReason "javascript:"⟩] else []
  let s₃ := pySub matchOnAttrQAt [] s₂
  let m₃ : List Modification :=
    if s₃ ≠ s₂ then
      [⟨s₂, s₃, scriptReason "on\\w+\\s*=\\s*[\"\x27][^\"\x27]*[\"\x27]"⟩]
    else []
  let s₄ := pySub (matchBlockAt (strL "<iframe") (strL "</iframe>")) [] s₃
  let m₄ : List Modification :=
    if s₄ ≠ s₃ then [⟨s₃, s₄, scriptReason "<iframe[^>]*>.*?</iframe>"⟩] else []
  (s₄, m₁ ++ m₂ ++ m₃ ++ m₄)

/-- `_sanitize_special_chars`: under STRICT, drop every character outside the
allow-list; other policies change nothing. -/
def sanitize_special_chars (l : Str) (policy : SanitizationPolicy) :
    Str × List Modification :=
  match policy with
  | .STRICT =>
    let cleaned := l.filter isAllowedStrict
    if cleaned ≠ l then (cleaned, [⟨l, cleaned, "厳格な文字制限適用"⟩])
    else (l, [])
  | _ => (l, [])

/-- `_apply_whitelist_filter`: reserved hook, a no-op. -/
def apply_whitelist_filter (l : Str) (_policy : SanitizationPolicy) :
    Str × List Modification :=
  (l, [])

/-- `_apply_length_limit`: truncate to `MAX_LENGTH = 100`. -/
def apply_length_limit (l : Str) : Str × List Modification :=
  if 100 < l.length then
    (l.take 100, [⟨l, l.take 100, "長さ制限適用（100文字まで）"⟩])
  else (l, [])

/-- Does a modification's reason mention one of the risk keywords
`スクリプト`, `HTML`, `危険な`? -/
def riskyReason (r : String) : Bool :=
  containsSub (strL "スクリプト") r.data || containsSub (strL "HTML") r.data ||
  containsSub (strL "危険な") r.data

/-- `_calculate_risk_level`. -/
def calculate_risk_level (mods : List Modification) : SecurityRiskLevel :=
  if mods = [] then .NONE
  else
    let high_risk_count := (mods.filter (fun m => riskyReason m.reason)).length
    if 2 < high_risk_count then .HIGH
    else if 0 < high_risk_count then .MEDIUM
    else if 3 < mods.length then .MEDIUM
    else .LOW

/-- `sanitize_task_input` (BR-005): the five sequential transforms. -/
def sanitize_task_input (raw : Str) (policy : SanitizationPolicy) :
    SanitizedInput :=
  let (c₁, m₁) := sanitize_html raw
  let (c₂, m₂) := sanitize_scripts c₁
  let (c₃, m₃) := sanitize_special_chars c₂ policy
  let (c₄, m₄) := apply_whitelist_filter c₃ policy
  let (c₅, m₅) := apply_length_limit c₄
  let mods := m₁ ++ m₂ ++ m₃ ++ m₄ ++ m₅
  { clean_input := c₅
    modifications := mods
    risk_level := if mods ≠ [] then calculate_risk_level mods else .NONE }

/-- `_detect_malicious_payloads`: the XSS family `<script[^>]*>`,
`javascript:`, `alert\s*\(`, `eval\s*\(` (HIGH, break at first) and the SQL
family `union\s+select`, `drop\s+table`, `\x27;` (CRITICAL, break at first). -/
def detect_malicious_payloads (l : Str) : List SecurityThreat :=
  (if scanB (fun s => (matchOpenTagAt (strL "<script") s).isSome) l ||
      searchLitCI (strL "javascript:") l ||
      scanB (matchCallAt (strL "alert")) l ||
      scanB (matchCallAt (strL "eval")) l then
     [⟨"XSS", "XSS攻撃パターンが検出されました", .HIGH⟩]
   else []) ++
  (if scanB (matchWordGapAt (strL "union") (strL "select")) l ||
      scanB (matchWordGapAt (strL "drop") (strL "table")) l ||
      searchLitCI (strL "\x27;") l then
     [⟨"SQL_INJECTION", "SQLインジェクション攻撃パターンが検出されました", .CRITICAL⟩]
   else [])

/-- `_detect_abnormal_patterns`: over-length (MEDIUM) and control characters
outside tab/newline/carriage-return (LOW). -/
def detect_abnormal_patterns (l : Str) : List SecurityThreat :=
  (if 1000 < l.length then
     [⟨"ABNORMAL_LENGTH", "異常に長い入力が検出されました", .MEDIUM⟩]
   else []) ++
  (if l.any (fun c => c.toNat < 32 && !(c == '\t' || c == '\n' || c == '\r')) then
     [⟨"CONTROL_CHARS", "制御文字が検出されました", .LOW⟩]
   else [])

/-- `_detect_data_attacks`: `len(set(x)) < len(x) * 0.1 and len(x) > 50`.  The
float comparison with `0.1` agrees with the exact rational comparison
`10 * distinct < len` for every length below `2^52` (the product
`n * float(0.1)` lies strictly within half an ulp of `n/10`), so the check is
embedded with exact arithmetic. -/
def detect_data_attacks (l : Str) : List SecurityThreat :=
  if 10 * l.eraseDups.length < l.length ∧ 50 < l.length then
    [⟨"REPETITIVE_DATA", "繰り返しデータパターンが検出されました", .LOW⟩]
  else []

/-- The admin-reserved keywords of `_check_permission_constraints`. -/
def admin_keywords : List Str :=
  [strL "admin", strL "root", strL "system", strL "config"]

/-- `_check_permission_constraints`: for a non-admin, non-system user, at most
one MEDIUM threat for the first admin keyword contained in the lowered text. -/
def check_permission_constraints (l : Str) (ctx : TaskCreationContext) :
    List SecurityThreat :=
  if ctx.user_id ≠ strL "admin" ∧ ctx.user_id ≠ strL "system" then
    match admin_keywords.find? (fun k => containsSub k (lowerStr l)) with
    | some k =>
      [⟨"PRIVILEGE_ESCALATION",
        "システム管理者用キーワード「" ++ String.mk k ++ "」の使用が制限されています",
        .MEDIUM⟩]
    | none => []
  else []

/-- Python's `max` over members of a plain (unordered) `Enum`: `max` starts
from the first element and compares each further element with `>`; a plain
`Enum` defines no ordering, so the first such comparison raises `TypeError`.
Hence `max` can only return on a one-element iterable; on an empty one it
raises `ValueError`. -/
def pyMaxPlainEnum {α : Type} : List α → Except PyErr α
  | [] => .error .valueError
  | [a] => .ok a
  | _ :: _ :: _ => .error .typeError

/-- `_determine_recommended_action`: ALLOW on no threats, otherwise map the
`max` risk level to REJECT/SANITIZE/AUDIT/ALLOW. -/
def determine_recommended_action (threats : List SecurityThreat) :
    Except PyErr SecurityAction :=
  if threats = [] then .ok .ALLOW
  else
    match pyMaxPlainEnum (threats.map (·.risk_level)) with
    | .error e => .error e
    | .ok max_risk =>
      .ok (if max_risk = .CRITICAL then .REJECT
           else if max_risk = .HIGH then .SANITIZE
           else if max_risk = .MEDIUM then .AUDIT
           else .ALLOW)

/-- `check_security_constraints`: run the four detectors, then judge. -/
def check_security_constraints (input_text : Str) (ctx : TaskCreationContext) :
    Except PyErr SecurityCheckResult :=
  let detected_threats :=
    detect_malicious_payloads input_text ++
    detect_abnormal_patterns input_text ++
    detect_data_attacks input_text ++
    check_permission_constraints input_text ctx
  match determine_recommended_action detected_threats with
  | .error e => .error e
  | .ok act =>
    .ok { is_passed := detected_threats.length == 0
          detected_threats := detected_threats
          recommended_action := act }

end TaskSecurityDomainService

/-! ### Value objects -/

/-- `TaskName` value object: the stored (already sanitized) value. -/
structure TaskName where
  value : Str
deriving DecidableEq, Repr

namespace TaskName

/-- `TaskName._sanitize_input` (BR-005): HTML-escape and then remove the four
dangerous patterns (`<script.*?>.*?</script>`, `javascript:`, `on\w+\s*=`,
`<iframe.*?>.*?</iframe>`, each replaced by the empty string), then strip.
The lazy `.*?>` of the tag openers consumes exactly through the first `>`,
the same extent as `[^>]*>` (see `tagCloseAfter`). -/
def sanitize_input (v : Str) : Str :=
  let s₁ := pySub (matchBlockAt (strL "<script") (strL "</script>")) [] (htmlEscape v)
  let s₂ := pySub matchJsAt [] s₁
  let s₃ := pySub (fun l => matchOnAttrBareAt l) [] s₂
  let s₄ := pySub (matchBlockAt (strL "<iframe") (strL "</iframe>")) [] s₃
  pyStrip s₄

/-- `TaskName.__init__`: the BR-001/BR-004 checks run on the raw and trimmed
input, and only then is the trimmed value sanitized and stored. -/
def new (value : Str) : Except DomainExc TaskName :=
  if value = [] then
    .error (.taskBusinessRule "タスク名は必須です" ["タスク名を入力してください"])
  else if pyStrip value = [] then
    .error (.taskBusinessRule "タスク名は必須です" ["空白のみのタスク名は無効です"])
  else if 100 < (pyStrip value).length then
    .error (.taskBusinessRule "タスク名は100文字以内で入力してください"
      ["現在の文字数: " ++ toString (pyStrip value).length ++ "文字"])
  else
    .ok ⟨sanitize_input (pyStrip value)⟩

end TaskName

/-- `uuid.UUID(value)` succeeds: the constructor deletes every `urn:` and
`uuid:` occurrence, strips surrounding braces, deletes every hyphen, and then
requires exactly 32 hexadecimal digits.  (Python's final `int(hex, 16)` also
tolerates `0x` or underscore separators inside a 32-character string; no string
this program produces or stores contains those, so they are not modelled.) -/
def uuidParses (l : Str) : Bool :=
  let h₁ := pySub (dropLeadX (strL "urn:")) [] l
  let h₂ := pySub (dropLeadX (strL "uuid:")) [] h₁
  let h₃ := (pyStripChars ['\x7b', '\x7d'] h₂).filter (fun c => !(c == '-'))
  h₃.length == 32 && h₃.all isHexChar

/-- `TaskId` value object. -/
structure TaskId where
  value : Str
deriving DecidableEq, Repr

namespace TaskId

/-- `TaskId.__init__`: non-empty and in UUID format. -/
def new (value : Str) : Except DomainExc TaskId :=
  if value = [] then
    .error (.taskValidation "TaskId は null でなく、空文字でもありません" [])
  else if uuidParses value then .ok ⟨value⟩
  else
    .error (.taskValidation "TaskId は UUID 形式である必要があります" [])

end TaskId

/-- `TaskStatusEnum`: the enum values are the Japanese strings `未完了`,
`完了`, `保留`. -/
inductive TaskStatusEnum
  | PENDING | COMPLETED | ON_HOLD
deriving DecidableEq, Repr

/-- The `value` of each `TaskStatusEnum` member. -/
def TaskStatusEnum.value : TaskStatusEnum → String
  | .PENDING => "未完了"
  | .COMPLETED => "完了"
  | .ON_HOLD => "保留"

/-- `TaskStatus` value object. -/
structure TaskStatus where
  enum_value : TaskStatusEnum
deriving DecidableEq, Repr

namespace TaskStatus

/-- `TaskStatus.pending()`. -/
def pending : TaskStatus := ⟨.PENDING⟩

/-- `TaskStatus.__init__` with a given string: look the value up among the
enum members. -/
def new (value : String) : Except DomainExc TaskStatus :=
  match [TaskStatusEnum.PENDING, .COMPLETED, .ON_HOLD].find?
          (fun st => st.value == value) with
  | some st => .ok ⟨st⟩
  | none => .error (.taskValidation "無効なタスクステータスです" [])

/-- `str(task.status)` / `TaskStatus.value`. -/
def valueStr (s : TaskStatus) : String := s.enum_value.value

end TaskStatus

/-- `datetime.replace(microsecond=m)`: replace the microsecond component,
raising `ValueError` unless `0 ≤ m ≤ 999999`.  Datetimes are `Nat`
microseconds, so the microsecond component is the value mod `1000000`. -/
def replaceMicro (dt m : Nat) : Except PyErr Nat :=
  if m ≤ 999999 then .ok (dt - dt % 1000000 + m) else .error .valueError

/-- `now.replace(microsecond=now.microsecond + 100000)`: the "now plus 100 ms
grace" bound computed by both `DateTimeValue.__init__` and
`CreateTaskCommand._validate_structure`. -/
def futureBound (now : Nat) : Except PyErr Nat :=
  replaceMicro now (now % 1000000 + 100000)

/-- `DateTimeValue.__init__` with an explicit value: reject a value later than
the grace bound (the bound computation itself can raise `ValueError`). -/
def DateTimeValue.new (now value : Nat) : Except DomainExc Nat :=
  match futureBound now with
  | .error e => .error (.pyError e)
  | .ok bound =>
    if bound < value then
      .error (.taskValidation "日時値は過去または現在の日時である必要があります" [])
    else .ok value

/-! ### Task entity (`task.py`) and factory (`task_factory.py`) -/

/-- The `Task` aggregate.  `created_at`/`updated_at` are the `CreatedAt` /
`UpdatedAt` datetime values. -/
structure Task where
  task_id : TaskId
  task_name : TaskName
  status : TaskStatus
  created_at : Nat
  updated_at : Nat
deriving DecidableEq, Repr

namespace Task

/-- `Task.__init__` / `_validate_invariants` with all attributes supplied.
The INV-001/002/003/005 truthiness checks cannot fire: the value objects
define no `__bool__`/`__len__`, so the objects are always truthy.  Only
INV-004 (`created_at > updated_at`) can reject. -/
def mkChecked (task_id : TaskId) (task_name : TaskName) (status : TaskStatus)
    (created_at updated_at : Nat) : Except DomainExc Task :=
  if updated_at < created_at then
    .error (.taskValidation
      "INV-004: createdAt は updatedAt より前または同じ日時である必要があります" [])
  else .ok ⟨task_id, task_name, status, created_at, updated_at⟩

/-- `Task.create`: generate the id from the supplied `uuid4` draw, use the
default pending status, and take the two separate `datetime.now()` reads for
`CreatedAt()` and `UpdatedAt()` (these are distinct clock reads in the code).
`CreatedAt()`/`UpdatedAt()` with no argument perform no range check. -/
def create (uuidDraw : Str) (nowCreated nowUpdated : Nat) (task_name : TaskName) :
    Except DomainExc Task :=
  match TaskId.new uuidDraw with
  | .error e => .error e
  | .ok id => mkChecked id task_name TaskStatus.pending nowCreated nowUpdated

/-- `Task.__eq__`: identity equality by task id (BIV-003). -/
def eqById (a b : Task) : Bool := a.task_id == b.task_id

end Task

/-- `TaskCreatedEvent` (with the `DomainEvent` base attributes; the
`aggregate_id`/`aggregate_type`/`version` metadata carry no information beyond
what is shown). -/
structure TaskCreatedEvent where
  event_id : Str
  task_id : Str
  task_name : Str
  user_id : Str
  created_at : Nat
  occurred_at : Nat
deriving DecidableEq, Repr

/-- `TaskCreationResult`. -/
structure TaskCreationResult where
  task : Task
  event : TaskCreatedEvent
  success : Bool
  created_at : Nat
deriving DecidableEq, Repr

/-- The nondeterministic inputs of one request: the two `uuid4` draws (task id
and event id) and the wall-clock reads taken while constructing the task and
its event. -/
structure Env where
  freshTaskUuid : Str
  eventUuid : Str
  tickCreated : Nat
  tickUpdated : Nat
  tickEvent : Nat
deriving DecidableEq, Repr

namespace TaskFactory

/-- `TaskFactory.validate_task_creation_prerequisites`. -/
def validate_task_creation_prerequisites (task_name user_id : Str) : Bool :=
  if task_name = [] ∨ user_id = [] then false
  else if (pyStrip task_name).length = 0 ∨ 100 < (pyStrip task_name).length then false
  else if (pyStrip user_id).length = 0 then false
  else true

/-- `TaskFactory.create_task`: `TaskName` construction then `Task.create`,
wrapping any exception into a `TaskFactoryException` (a
`TaskCreationException`). -/
def create_task (env : Env) (task_name : Str) : Except DomainExc Task :=
  match (match TaskName.new task_name with
         | .error e => .error e
         | .ok nm => Task.create env.freshTaskUuid env.tickCreated env.tickUpdated nm :
         Except DomainExc Task) with
  | .ok t => .ok t
  | .error e => .error (.taskCreation ("タスク作成に失敗しました: " ++ e.message))

/-- `Task.create_domain_event`. -/
def create_domain_event (env : Env) (t : Task) (user_id : Str) : TaskCreatedEvent :=
  { event_id := env.eventUuid
    task_id := t.task_id.value
    task_name := t.task_name.value
    user_id := user_id
    created_at := t.created_at
    occurred_at := env.tickEvent }

/-- `TaskFactory.create_task_with_event`, again wrapping any exception into a
`TaskFactoryException`. -/
def create_task_with_event (env : Env) (task_name user_id : Str) :
    Except DomainExc TaskCreationResult :=
  match create_task env task_name with
  | .ok t =>
    .ok { task := t
          event := create_domain_event env t user_id
          success := true
          created_at := t.created_at }
  | .error e =>
    .error (.taskCreation ("イベント付きタスク作成に失敗しました: " ++ e.message))

end TaskFactory

/-! ### Creation domain service (`task_creation_domain_service.py`) -/

namespace TaskCreationDomainService

open TaskValidationDomainService TaskSecurityDomainService

/-- The body of `create_new_task`'s `try` block: basic prerequisite check,
validation, sanitization, security check, then factory creation. -/
def create_new_task_body (env : Env) (task_name : Str)
    (ctx : TaskCreationContext) : Except DomainExc TaskCreationResult :=
  if TaskFactory.validate_task_creation_prerequisites task_name ctx.user_id = false then
    .error (.taskCreation "タスク作成の事前条件を満たしていません")
  else
    let vr := validate_task_creation task_name ctx
    if vr.is_valid = false then
      .error (.taskValidation "バリデーションに失敗しました" vr.get_error_messages)
    else
      let sanitized := sanitize_task_input task_name .STRICT
      match check_security_constraints sanitized.clean_input ctx with
      | .error e => .error (.pyError e)
      | .ok security_result =>
        if security_result.is_passed = false ∧
           security_result.get_critical_threats ≠ [] then
          .error (.taskSecurity "セキュリティ制約に違反しています"
            (some "CRITICAL_THREAT_DETECTED"))
        else
          TaskFactory.create_task_with_event env sanitized.clean_input ctx.user_id

/-- The `except` clauses of `create_new_task`: validation exceptions (which
include business-rule exceptions, a subclass) and security exceptions are
re-raised unchanged; everything else is wrapped into a
`TaskCreationException`. -/
def reraisePolicy : DomainExc → DomainExc
  | e@(.taskValidation _ _) => e
  | e@(.taskBusinessRule _ _) => e
  | e@(.taskSecurity _ _) => e
  | e => .taskCreation ("タスク作成処理に失敗しました: " ++ e.message)

/-- `create_new_task`. -/
def create_new_task (env : Env) (task_name : Str) (ctx : TaskCreationContext) :
    Except DomainExc TaskCreationResult :=
  match create_new_task_body env task_name ctx with
  | .ok r => .ok r
  | .error e => .error (reraisePolicy e)

end TaskCreationDomainService

/-! ### Application layer: command, responses, service -/

/-- A constructed `CreateTaskCommand` (its `_validate_structure` ran at
construction; `request_id` and `timestamp` have been defaulted if absent). -/
structure CreateTaskCommandData where
  task_name : Str
  user_id : Str
  request_id : Str
  timestamp : Nat
deriving DecidableEq, Repr

/-- `CreateTaskCommand.to_creation_context` (the context stores the ISO form
of the timestamp and a platform/user-agent descriptor; only `user_id` is ever
read by the domain services). -/
def CreateTaskCommandData.to_creation_context (c : CreateTaskCommandData) :
    TaskCreationContext :=
  { user_id := c.user_id
    timestamp := some c.timestamp
    client_info := "web_unknown"
    request_id := some c.request_id }

namespace CreateTaskCommand

/-- `CreateTaskCommand._validate_structure` (the `isinstance` checks cannot
fail in a typed embedding and are not modelled): presence of name and user id,
the future-timestamp check against `now` + 100 ms (whose bound computation can
itself raise `ValueError`, surfaced as `pyError`), and the UUID format of a
supplied request id. -/
def validate_structure (now : Nat) (task_name user_id : Str)
    (request_id : Option Str) (timestamp : Option Nat) :
    Except DomainExc Unit :=
  if task_name = [] then .error (.taskValidation "タスク名は必須です" [])
  else if user_id = [] then .error (.taskValidation "ユーザーIDは必須です" [])
  else
    match (match timestamp with
           | some ts =>
             (match futureBound now with
              | .error e => .error (.pyError e)
              | .ok bound =>
                if bound < ts then
                  .error (.taskValidation "タイムスタンプは現在時刻以前である必要があります" [])
                else .ok ())
           | none => .ok () : Except DomainExc Unit) with
    | .error e => .error e
    | .ok _ =>
      match request_id with
      | some rid =>
        if uuidParses rid then .ok ()
        else .error (.taskValidation "リクエストIDはUUID形式である必要があります" [])
      | none => .ok ()

end CreateTaskCommand

/-- The error-code classification of `CreateTaskErrorResponse`. -/
inductive ErrorCode
  | VALIDATION_ERROR | SECURITY_ERROR | BUSINESS_RULE_VIOLATION
  | INFRASTRUCTURE_ERROR | UNKNOWN_ERROR
deriving DecidableEq, Repr

/-- `ErrorDetail`. -/
structure ErrorDetail where
  field : String
  code : String
  message : String
  value : Option Str
deriving DecidableEq, Repr

/-- `CreateTaskErrorResponse` (its wall-clock `timestamp` field, never read,
is not modelled). -/
structure CreateTaskErrorResponse where
  error_code : ErrorCode
  error_message : String
  details : List ErrorDetail
  request_id : Option Str
deriving DecidableEq, Repr

namespace CreateTaskErrorResponse

/-- `from_validation_exception`. -/
def from_validation_exception (message : String) (violations : List String)
    (request_id : Option Str) : CreateTaskErrorResponse :=
  { error_code := .VALIDATION_ERROR
    error_message := message
    details := violations.map (fun v => ⟨"task_name", "VALIDATION_FAILED", v, none⟩)
    request_id := request_id }

/-- `from_security_exception`. -/
def from_security_exception (request_id : Option Str) : CreateTaskErrorResponse :=
  { error_code := .SECURITY_ERROR
    error_message := "入力データにセキュリティ上の問題があります"
    details := [⟨"task_name", "SECURITY_THREAT",
                 "セキュリティ制約に違反する内容が検出されました", none⟩]
    request_id := request_id }

/-- `from_business_rule_violation`. -/
def from_business_rule_violation (message : String) (violations : List String)
    (request_id : Option Str) : CreateTaskErrorResponse :=
  { error_code := .BUSINESS_RULE_VIOLATION
    error_message := message
    details := violations.map (fun v => ⟨"task_name", "BUSINESS_RULE_VIOLATION", v, none⟩)
    request_id := request_id }

/-- `from_infrastructure_error`. -/
def from_infrastructure_error (message : String) (request_id : Option Str) :
    CreateTaskErrorResponse :=
  { error_code := .INFRASTRUCTURE_ERROR
    error_message := message
    details := []
    request_id := request_id }

/-- `from_unknown_error`. -/
def from_unknown_error (request_id : Option Str) : CreateTaskErrorResponse :=
  { error_code := .UNKNOWN_ERROR
    error_message := "予期しないエラーが発生しました"
    details := []
    request_id := request_id }

end CreateTaskErrorResponse

/-- `CreateTaskResponse`. -/
structure CreateTaskResponse where
  task_id : Str
  task_name : Str
  status : String
  created_at : Nat
  message : String
  request_id : Option Str
deriving DecidableEq, Repr

/-- `CreateTaskResponse.from_task_creation_result`, including the
constructor's constraint checks (all attributes truthy — the datetime is
always truthy — and the task id in UUID format); a violated constraint raises
`ValueError`. -/
def CreateTaskResponse.from_task_creation_result (r : TaskCreationResult)
    (request_id : Option Str) : Except PyErr CreateTaskResponse :=
  let tid := r.task.task_id.value
  if tid = [] ∨ r.task.task_name.value = [] ∨ r.task.status.valueStr = "" ∨
     "タスクが正常に追加されました" = "" then
    .error .valueError
  else if uuidParses tid then
    .ok { task_id := tid
          task_name := r.task.task_name.value
          status := r.task.status.valueStr
          created_at := r.task.created_at
          message := "タスクが正常に追加されました"
          request_id := request_id }
  else .error .valueError

/-! ### Repository (`task_repository_impl.py`) -/

/-- The storage dictionary entry produced by `_task_to_storage_dict` (the
constant `version` field carries no information). -/
structure StoredTaskDict where
  task_id : Str
  task_name : Str
  status : String
  created_at : Nat
  updated_at : Nat
deriving DecidableEq, Repr

/-- The in-memory storage: a Python dict keyed by the task-id string. -/
abbrev Storage := List (Str × StoredTaskDict)

/-- Python dict assignment `d[k] = v`: replace the value at an existing key,
else append. -/
def dictInsert (k : Str) (v : StoredTaskDict) : Storage → Storage
  | [] => [(k, v)]
  | (k', v') :: rest =>
    if k' = k then (k, v) :: rest else (k', v') :: dictInsert k v rest

/-- Python dict lookup. -/
def dictFind (k : Str) : Storage → Option StoredTaskDict
  | [] => none
  | (k', v') :: rest => if k' = k then some v' else dictFind k rest

namespace TaskRepositoryImpl

/-- `_task_to_storage_dict`. -/
def task_to_storage_dict (t : Task) : StoredTaskDict :=
  { task_id := t.task_id.value
    task_name := t.task_name.value
    status := t.status.valueStr
    created_at := t.created_at
    updated_at := t.updated_at }

/-- `save`: store the converted dict under the task-id string (the conversion
cannot raise, so the `StorageError` wrap never fires). -/
def save (st : Storage) (t : Task) : Storage :=
  dictInsert t.task_id.value (task_to_storage_dict t) st

/-- `TaskFactory.restore_task` (as used by `_storage_dict_to_task`): rebuild
each value object — re-running the `TaskName` validation/sanitization and the
`DateTimeValue` future check against the restore-time clock `now` — and then
the `Task` constructor; any exception is wrapped into a
`TaskFactoryException`.  (`datetime.fromisoformat` of `isoformat` output is
the identity on the stored microsecond value.) -/
def restore_task (now : Nat) (d : StoredTaskDict) : Except DomainExc Task :=
  match (match TaskId.new d.task_id with
         | .error e => .error e
         | .ok id =>
           match TaskName.new d.task_name with
           | .error e => .error e
           | .ok nm =>
             match TaskStatus.new d.status with
             | .error e => .error e
             | .ok stt =>
               match DateTimeValue.new now d.created_at with
               | .error e => .error e
               | .ok c =>
                 match DateTimeValue.new now d.updated_at with
                 | .error e => .error e
                 | .ok u => Task.mkChecked id nm stt c u : Except DomainExc Task) with
  | .ok t => .ok t
  | .error e => .error (.taskCreation ("タスク復元に失敗しました: " ++ e.message))

/-- `find_by_id`: look the id up and restore; any exception during restoration
is swallowed and `None` returned. -/
def find_by_id (now : Nat) (st : Storage) (id : TaskId) : Option Task :=
  match dictFind id.value st with
  | none => none
  | some d =>
    match restore_task now d with
    | .ok t => some t
    | .error _ => none

end TaskRepositoryImpl

/-! ### Application service (`task_creation_application_service.py`) -/

/-- The outcome `create_task` hands back to its caller. -/
inductive CreateTaskOutcome
  | success (r : CreateTaskResponse)
  | failure (e : CreateTaskErrorResponse)
deriving DecidableEq, Repr

/-- The error code of a failure outcome. -/
def CreateTaskOutcome.errorCode : CreateTaskOutcome → Option ErrorCode
  | .success _ => none
  | .failure e => some e.error_code

/-- Is the outcome a success response? -/
def CreateTaskOutcome.isSuccess : CreateTaskOutcome → Bool
  | .success _ => true
  | .failure _ => false

/-- The returned status string of a success outcome. -/
def CreateTaskOutcome.statusString : CreateTaskOutcome → Option String
  | .success r => some r.status
  | .failure _ => none

/-- The returned task id of a success outcome. -/
def CreateTaskOutcome.taskIdOf : CreateTaskOutcome → Option Str
  | .success r => some r.task_id
  | .failure _ => none

/-- The returned creation time of a success outcome. -/
def CreateTaskOutcome.createdOf : CreateTaskOutcome → Option Nat
  | .success r => some r.created_at
  | .failure _ => none

/-- The `except` clauses of `TaskCreationApplicationService.create_task`.
The `except TaskValidationException` clause fires first and also catches
`TaskBusinessRuleViolationException` (its subclass), so the dedicated
business-rule clause below it is unreachable; `TaskSecurityException` maps to
the security response, `TaskCreationException` to a generic infrastructure
response, and anything else to the unknown-error response. -/
def appExceptionToResponse (e : DomainExc) (request_id : Option Str) :
    CreateTaskErrorResponse :=
  match e with
  | .taskValidation m v => .from_validation_exception m v request_id
  | .taskBusinessRule m v => .from_validation_exception m v request_id
  | .taskSecurity _ _ => .from_security_exception request_id
  | .taskCreation _ =>
    .from_infrastructure_error "タスクの作成に失敗しました" request_id
  | .pyError _ => .from_unknown_error request_id

/-- `TaskCreationApplicationService.create_task` on an already-constructed
command: domain service, then save, then publish (which raises `ValueError`
only if the event id is empty — impossible for a real `uuid4` draw — caught by
the outer handler), then the response (whose constructor's `ValueError` is
likewise caught and mapped to the unknown-error response). -/
def create_task (env : Env) (st : Storage) (cmd : CreateTaskCommandData) :
    CreateTaskOutcome × Storage :=
  match TaskCreationDomainService.create_new_task env cmd.task_name
          cmd.to_creation_context with
  | .error e => (.failure (appExceptionToResponse e (some cmd.request_id)), st)
  | .ok result =>
    let st' := TaskRepositoryImpl.save st result.task
    if result.event.event_id = [] then
      (.failure (.from_unknown_error (some cmd.request_id)), st')
    else
      match CreateTaskResponse.from_task_creation_result result (some cmd.request_id) with
      | .ok resp => (.success resp, st')
      | .error _ => (.failure (.from_unknown_error (some cmd.request_id)), st')

/-! ## Helper lemmas -/

theorem scanB_suffix (test : Str → Bool) (a s : Str) (h : test s = true) :
    scanB test (a ++ s) = true := by
  induction a with
  | nil =>
    cases s with
    | nil => simpa [scanB] using h
    | cons c t => simp [scanB, h]
  | cons c a ih => simp [scanB, ih]

theorem mem_dropWhile_of_not {p : Char → Bool} {c : Char} :
    ∀ {l : Str}, c ∈ l → p c = false → c ∈ l.dropWhile p := by
  intro l
  induction l with
  | nil => intro h _; exact absurd h (List.not_mem_nil c)
  | cons d t ih =>
    intro hmem hp
    by_cases hd : p d = true
    · rcases List.mem_cons.mp hmem with rfl | ht
      · rw [hp] at hd; exact absurd hd (by simp)
      · simpa [List.dropWhile, hd] using ih ht hp
    · have hd' : p d = false := by
        cases hpd : p d
        · rfl
        · exact absurd hpd hd
      simpa [List.dropWhile, hd'] using hmem

theorem pyStrip_ne_nil {l : Str} {c : Char} (hc : c ∈ l)
    (hp : isPySpace c = false) : pyStrip l ≠ [] := by
  intro h
  have h1 : (l.dropWhile isPySpace).reverse.dropWhile isPySpace = [] := by
    simpa [pyStrip] using h
  have hc1 : c ∈ l.dropWhile isPySpace := mem_dropWhile_of_not hc hp
  have hc2 : c ∈ (l.dropWhile isPySpace).reverse := List.mem_reverse.mpr hc1
  have hc3 : c ∈ (l.dropWhile isPySpace).reverse.dropWhile isPySpace :=
    mem_dropWhile_of_not hc2 hp
  rw [h1] at hc3
  exact absurd hc3 (List.not_mem_nil c)

theorem pyStrip_eq_nil_of_all {l : Str} (h : ∀ c ∈ l, isPySpace c = true) :
    pyStrip l = [] := by
  have h1 : l.dropWhile isPySpace = [] := List.dropWhile_eq_nil_iff.mpr h
  simp [pyStrip, h1]

theorem uuidParses_ne_nil {u : Str} (h : uuidParses u = true) : u ≠ [] := by
  intro hnil
  subst hnil
  exact absurd h (by decide)

/-- `Char.ofNat` evaluates to its argument on valid codepoints. -/
theorem charOfNat_toNat {n : Nat} (h : n.isValidChar) :
    (Char.ofNat n).toNat = n := by
  unfold Char.ofNat
  rw [dif_pos h]
  rfl

/-- `lowerChar` either fixes its argument or produces a lowercase ASCII
letter. -/
theorem lowerChar_spec (c : Char) :
    lowerChar c = c ∨ (97 ≤ (lowerChar c).toNat ∧ (lowerChar c).toNat ≤ 122) := by
  unfold lowerChar
  by_cases h : 65 ≤ c.toNat ∧ c.toNat ≤ 90
  · right
    rw [if_pos h, charOfNat_toNat (Or.inl (by omega))]
    omega
  · left
    rw [if_neg h]

/-- If `lowerChar c` is a character that is not a lowercase ASCII letter, then
`c` was that character already. -/
theorem eq_of_lowerChar_eq {c d : Char}
    (hd : ¬ (97 ≤ d.toNat ∧ d.toNat ≤ 122)) (h : lowerChar c = d) : c = d := by
  rcases lowerChar_spec c with h' | h'
  · rw [h] at h'; exact h'.symm
  · rw [h] at h'; exact absurd h' hd

/-- If a case-insensitive prefix match succeeds, every pattern character has a
consumed counterpart with the same lower-casing in the text. -/
theorem dropLeadCI_mem : ∀ (pat l r : Str), dropLeadCI pat l = some r →
    ∀ d ∈ pat, ∃ c ∈ l, lowerChar c = lowerChar d := by
  intro pat
  induction pat with
  | nil => intro l r _ d hd; exact absurd hd (List.not_mem_nil d)
  | cons p ps ih =>
    intro l r h d hd
    cases l with
    | nil => exact absurd h (by simp [dropLeadCI])
    | cons c cs =>
      unfold dropLeadCI at h
      by_cases hc : lowerChar c == lowerChar p
      · rw [if_pos hc] at h
        rcases List.mem_cons.mp hd with rfl | hps
        · exact ⟨c, List.mem_cons_self c cs, beq_iff_eq.mp hc⟩
        · rcases ih cs r h d hps with ⟨c', hc', he⟩
          exact ⟨c', List.mem_cons_of_mem c hc', he⟩
      · rw [if_neg hc] at h
        exact absurd h (by simp)

/-- A successful case-insensitive prefix removal returns a subset of the
text. -/
theorem dropLeadCI_subset : ∀ (pat l r : Str), dropLeadCI pat l = some r →
    ∀ c ∈ r, c ∈ l := by
  intro pat
  induction pat with
  | nil =>
    intro l r h c hc
    unfold dropLeadCI at h
    cases h
    exact hc
  | cons p ps ih =>
    intro l r h c hc
    cases l with
    | nil => exact absurd h (by simp [dropLeadCI])
    | cons d ds =>
      unfold dropLeadCI at h
      by_cases hd : lowerChar d == lowerChar p
      · rw [if_pos hd] at h
        exact List.mem_cons_of_mem d (ih ds r h c hc)
      · rw [if_neg hd] at h
        exact absurd h (by simp)

/-- A character of an allow-listed string cannot lower to a symbol outside
both the allow-list and the lowercase ASCII letters. -/
theorem allowed_lower_ne {c d : Char} (hc : isAllowedStrict c = true)
    (hd : isAllowedStrict d = false)
    (hdr : ¬ (97 ≤ d.toNat ∧ d.toNat ≤ 122)) : ¬ lowerChar c = d := by
  intro h
  have hcd : c = d := eq_of_lowerChar_eq hdr h
  rw [hcd] at hc
  rw [hc] at hd
  exact absurd hd (by simp)

/-- The tag-block patterns need a literal `<`, which the allow-list
excludes. -/
theorem matchBlockAt_none {openTag closeTag l : Str} (hlt : '<' ∈ openTag)
    (hall : ∀ c ∈ l, isAllowedStrict c = true) :
    matchBlockAt openTag closeTag l = none := by
  unfold matchBlockAt matchOpenTagAt
  cases h : dropLeadCI openTag l with
  | none => rfl
  | some r =>
    exfalso
    rcases dropLeadCI_mem openTag l r h '<' hlt with ⟨c, hc, he⟩
    have he' : lowerChar c = '<' := by
      rw [he]
      decide
    exact allowed_lower_ne (hall c hc) (by decide) (by decide) he'

/-- The `javascript:` pattern needs a literal `:`, which the allow-list
excludes. -/
theorem matchJsAt_none {l : Str} (hall : ∀ c ∈ l, isAllowedStrict c = true) :
    matchJsAt l = none := by
  unfold matchJsAt
  cases h : dropLeadCI (strL "javascript:") l with
  | none => rfl
  | some r =>
    exfalso
    rcases dropLeadCI_mem _ l r h ':' (by decide) with ⟨c, hc, he⟩
    have he' : lowerChar c = ':' := by
      rw [he]
      decide
    exact allowed_lower_ne (hall c hc) (by decide) (by decide) he'

theorem eqSignAfter_mem {l r : Str} (h : eqSignAfter l = some r) : '=' ∈ l := by
  unfold eqSignAfter at h
  cases hd : l.dropWhile isPySpace with
  | nil =>
    rw [hd] at h
    exact absurd h (by simp)
  | cons c t =>
    rw [hd] at h
    by_cases hc : c = '='
    · subst hc
      have hmem : '=' ∈ l.dropWhile isPySpace := by
        rw [hd]
        exact List.mem_cons_self '=' t
      exact (List.dropWhile_sublist isPySpace).subset hmem
    · simp [hc] at h

/-- The bare event-handler pattern `on\w+\s*=` needs a literal `=`, which the
allow-list excludes. -/
theorem matchOnAttrBareAt_none {l : Str}
    (hall : ∀ c ∈ l, isAllowedStrict c = true) :
    matchOnAttrBareAt l = none := by
  unfold matchOnAttrBareAt
  cases h : dropLeadCI (strL "on") l with
  | none => rfl
  | some r =>
    cases r with
    | nil => rfl
    | cons c r₂ =>
      show (if isPyWord c = true then eqSignAfter (r₂.dropWhile isPyWord)
            else none) = none
      by_cases hw : isPyWord c = true
      · rw [if_pos hw]
        cases he : eqSignAfter (r₂.dropWhile isPyWord) with
        | none => rfl
        | some x =>
          exfalso
          have h1 : '=' ∈ r₂.dropWhile isPyWord := eqSignAfter_mem he
          have h2 : '=' ∈ r₂ := (List.dropWhile_sublist isPyWord).subset h1
          have h3 : '=' ∈ l :=
            dropLeadCI_subset _ l (c :: r₂) h '=' (List.mem_cons_of_mem c h2)
          exact absurd (hall '=' h3) (by decide)
      · rw [if_neg hw]

/-- The quoted event-handler pattern of the sanitizer likewise cannot fire. -/
theorem matchOnAttrQAt_none {l : Str}
    (hall : ∀ c ∈ l, isAllowedStrict c = true) :
    matchOnAttrQAt l = none := by
  unfold matchOnAttrQAt
  rw [matchOnAttrBareAt_none hall]

/-- A substitution pass leaves a string untouched when the matcher refuses
every all-`P` string and the string is all-`P`. -/
theorem subFuel_id (m : Str → Option Str) (repl : Str) (P : Char → Bool)
    (hm : ∀ s : Str, (∀ c ∈ s, P c = true) → m s = none) :
    ∀ (f : Nat) (l : Str), (∀ c ∈ l, P c = true) → subFuel m repl f l = l := by
  intro f
  induction f with
  | zero => intro l _; rfl
  | succ f ih =>
    intro l hl
    cases l with
    | nil => rfl
    | cons c r =>
      unfold subFuel
      rw [hm (c :: r) hl]
      show c :: subFuel m repl f r = c :: r
      rw [ih r (fun d hd => hl d (List.mem_cons_of_mem c hd))]

theorem pySub_id (m : Str → Option Str) (repl : Str) (P : Char → Bool)
    (hm : ∀ s : Str, (∀ c ∈ s, P c = true) → m s = none)
    {l : Str} (hl : ∀ c ∈ l, P c = true) : pySub m repl l = l :=
  subFuel_id m repl P hm l.length l hl

theorem escapeChar_id {c : Char} (h : isAllowedStrict c = true) :
    escapeChar c = [c] := by
  have h1 : c ≠ '&' := by rintro rfl; exact absurd h (by decide)
  have h2 : c ≠ '<' := by rintro rfl; exact absurd h (by decide)
  have h3 : c ≠ '>' := by rintro rfl; exact absurd h (by decide)
  have h4 : c ≠ '"' := by rintro rfl; exact absurd h (by decide)
  have h5 : c ≠ '\x27' := by rintro rfl; exact absurd h (by decide)
  unfold escapeChar
  rw [if_neg h1, if_neg h2, if_neg h3, if_neg h4, if_neg h5]

theorem htmlEscape_id {l : Str} (hl : ∀ c ∈ l, isAllowedStrict c = true) :
    htmlEscape l = l := by
  induction l with
  | nil => rfl
  | cons c r ih =>
    unfold htmlEscape
    rw [escapeChar_id (hl c (List.mem_cons_self c r)),
        ih (fun d hd => hl d (List.mem_cons_of_mem c hd))]
    rfl

namespace TaskSecurityDomainService

theorem sanitize_html_fst (l : Str) : (sanitize_html l).1 = htmlEscape l := by
  unfold sanitize_html
  dsimp only
  split <;> rfl

theorem sanitize_scripts_fst (l : Str) :
    (sanitize_scripts l).1 =
      pySub (matchBlockAt (strL "<iframe") (strL "</iframe>")) []
        (pySub matchOnAttrQAt []
          (pySub matchJsAt (strL "text:")
            (pySub (matchBlockAt (strL "<script") (strL "</script>")) [] l))) := by
  rfl

theorem sanitize_special_chars_fst (l : Str) :
    (sanitize_special_chars l .STRICT).1 = l.filter isAllowedStrict := by
  unfold sanitize_special_chars
  dsimp only
  split
  · rfl
  · next h => exact (not_ne_iff.mp h).symm

theorem apply_length_limit_fst (l : Str) :
    (apply_length_limit l).1 = if 100 < l.length then l.take 100 else l := by
  unfold apply_length_limit
  split <;> simp_all

theorem clean_input_chain (raw : Str) (pol : SanitizationPolicy) :
    (sanitize_task_input raw pol).clean_input =
      (apply_length_limit
        (sanitize_special_chars (sanitize_scripts (sanitize_html raw).1).1 pol).1).1 := by
  unfold sanitize_task_input
  rcases h1 : sanitize_html raw with ⟨c1, m1⟩
  rcases h2 : sanitize_scripts c1 with ⟨c2, m2⟩
  rcases h3 : sanitize_special_chars c2 pol with ⟨c3, m3⟩
  rcases h5 : apply_length_limit c3 with ⟨c5, m5⟩
  simp [apply_whitelist_filter, h1, h2, h3, h5]

/-- Every character of the STRICT-sanitized clean text is on the allow-list. -/
theorem clean_input_allowed (raw : Str) :
    ∀ c ∈ (sanitize_task_input raw .STRICT).clean_input,
      isAllowedStrict c = true := by
  intro c hc
  rw [clean_input_chain, sanitize_special_chars_fst, apply_length_limit_fst] at hc
  split at hc
  · exact List.of_mem_filter (List.take_subset 100 _ hc)
  · exact List.of_mem_filter hc

/-- The STRICT-sanitized clean text has at most 100 characters. -/
theorem clean_input_short (raw : Str) :
    (sanitize_task_input raw .STRICT).clean_input.length ≤ 100 := by
  rw [clean_input_chain, apply_length_limit_fst]
  split
  · next h => simp [List.length_take]
  · next h => omega

/-- On an allow-listed string of at most 100 characters, the STRICT sanitizer
is the identity on clean text: every transform refuses to fire. -/
theorem sanitize_fix {y : Str} (hall : ∀ c ∈ y, isAllowedStrict c = true)
    (hlen : y.length ≤ 100) :
    (sanitize_task_input y .STRICT).clean_input = y := by
  rw [clean_input_chain, sanitize_html_fst, htmlEscape_id hall,
      sanitize_scripts_fst,
      pySub_id (matchBlockAt (strL "<script") (strL "</script>")) []
        isAllowedStrict (fun _ hs => matchBlockAt_none (by decide) hs) hall,
      pySub_id matchJsAt (strL "text:") isAllowedStrict
        (fun _ hs => matchJsAt_none hs) hall,
      pySub_id matchOnAttrQAt [] isAllowedStrict
        (fun _ hs => matchOnAttrQAt_none hs) hall,
      pySub_id (matchBlockAt (strL "<iframe") (strL "</iframe>")) []
        isAllowedStrict (fun _ hs => matchBlockAt_none (by decide) hs) hall,
      sanitize_special_chars_fst, List.filter_eq_self.mpr hall,
      apply_length_limit_fst, if_neg (by omega)]

end TaskSecurityDomainService

/-! ## Pipeline helper lemmas -/

theorem is_valid_false_of_violations_ne_nil (name : Str)
    (ctx : TaskCreationContext)
    (h : (TaskValidationDomainService.validate_task_creation name ctx).violations ≠ []) :
    (TaskValidationDomainService.validate_task_creation name ctx).is_valid = false := by
  have heq : (TaskValidationDomainService.validate_task_creation name ctx).is_valid
      = ((TaskValidationDomainService.validate_task_creation name ctx).violations.length == 0) := rfl
  rw [heq, beq_eq_false_iff_ne]
  intro hlen
  exact h (List.length_eq_zero.mp hlen)

theorem violations_ne_nil_of_security (name : Str) (ctx : TaskCreationContext)
    (h : TaskValidationDomainService.validate_security_rules name ≠ []) :
    (TaskValidationDomainService.validate_task_creation name ctx).violations ≠ [] := by
  unfold TaskValidationDomainService.validate_task_creation
  dsimp only
  intro hc
  rcases List.append_eq_nil.mp hc with ⟨h1, _⟩
  rcases List.append_eq_nil.mp h1 with ⟨h2, _⟩
  rcases List.append_eq_nil.mp h2 with ⟨_, hs⟩
  exact h hs

theorem violations_ne_nil_of_business (name : Str) (ctx : TaskCreationContext)
    (h : TaskValidationDomainService.validate_business_rules name ≠ []) :
    (TaskValidationDomainService.validate_task_creation name ctx).violations ≠ [] := by
  unfold TaskValidationDomainService.validate_task_creation
  dsimp only
  intro hc
  rcases List.append_eq_nil.mp hc with ⟨h1, _⟩
  rcases List.append_eq_nil.mp h1 with ⟨_, hb⟩
  exact h hb

theorem prerequisites_true {name user : Str} (hn : name ≠ [])
    (hns : pyStrip name ≠ []) (hlen : (pyStrip name).length ≤ 100)
    (hu : user ≠ []) (hus : pyStrip user ≠ []) :
    TaskFactory.validate_task_creation_prerequisites name user = true := by
  have h1 : ¬ (name = [] ∨ user = []) := not_or.mpr ⟨hn, hu⟩
  have h2 : ¬ ((pyStrip name).length = 0 ∨ 100 < (pyStrip name).length) := by
    push_neg
    exact ⟨fun hz => hns (List.length_eq_zero.mp hz), hlen⟩
  have h3 : ¬ (pyStrip user).length = 0 := fun hz => hus (List.length_eq_zero.mp hz)
  unfold TaskFactory.validate_task_creation_prerequisites
  rw [if_neg h1, if_neg h2, if_neg h3]

/-- When the domain prerequisites pass but validation rejects, the
application service returns a payload with code `VALIDATION_ERROR`. -/
theorem create_task_validation_error (env : Env) (st : Storage)
    (cmd : CreateTaskCommandData)
    (hpre : TaskFactory.validate_task_creation_prerequisites cmd.task_name cmd.user_id = true)
    (hval : (TaskValidationDomainService.validate_task_creation cmd.task_name
              cmd.to_creation_context).is_valid = false) :
    ((create_task env st cmd).1).errorCode = some .VALIDATION_ERROR := by
  unfold create_task TaskCreationDomainService.create_new_task
    TaskCreationDomainService.create_new_task_body
  dsimp only
  rw [show cmd.to_creation_context.user_id = cmd.user_id from rfl, hpre, hval]
  simp [TaskCreationDomainService.reraisePolicy, appExceptionToResponse,
        CreateTaskOutcome.errorCode, CreateTaskErrorResponse.from_validation_exception]

/-- When the domain prerequisites fail, the application service returns a
payload with code `INFRASTRUCTURE_ERROR` (the `TaskCreationException` raised
by the prerequisite check is wrapped and mapped to the generic infrastructure
response). -/
theorem create_task_infrastructure_error (env : Env) (st : Storage)
    (cmd : CreateTaskCommandData)
    (hpre : TaskFactory.validate_task_creation_prerequisites cmd.task_name cmd.user_id = false) :
    ((create_task env st cmd).1).errorCode = some .INFRASTRUCTURE_ERROR := by
  unfold create_task TaskCreationDomainService.create_new_task
    TaskCreationDomainService.create_new_task_body
  dsimp only
  rw [show cmd.to_creation_context.user_id = cmd.user_id from rfl, hpre]
  simp [TaskCreationDomainService.reraisePolicy, appExceptionToResponse,
        CreateTaskOutcome.errorCode, CreateTaskErrorResponse.from_infrastructure_error,
        DomainExc.message]

/-! ## Concrete fixtures shared by the counterexample runs -/

/-- A fixed environment: canonical uuid4-format draws for the task and event
ids, clock reads 3 (creation), 5 (update) and 7 (event). -/
def env0 : Env :=
  ⟨strL "12345678-1234-4234-8234-123456789abc",
   strL "22345678-1234-4234-8234-123456789abc", 3, 5, 7⟩

/-- A constructed command with the given name and user id. -/
def mkCmd (n u : String) : CreateTaskCommandData :=
  ⟨strL n, strL u, strL "32345678-1234-4234-8234-123456789abc", 0⟩

/-- A creation context for the ordinary user `user-123`. -/
def ctxUser123 : TaskCreationContext :=
  ⟨strL "user-123", none, "web_unknown", none⟩

/-! ## Claims -/

/-- C7: sanitization is idempotent — for every input string `x`, sanitizing
the clean output of `sanitize_task_input x` under the same STRICT policy
yields the same clean text, `sanitize(sanitize(x)) = sanitize(x)`.  (The
first pass leaves only allow-listed characters and at most 100 of them, and on
such strings every transform of a second pass refuses to fire.) -/
theorem C7_sanitize_idempotent (x : Str) :
    (TaskSecurityDomainService.sanitize_task_input
        (TaskSecurityDomainService.sanitize_task_input x .STRICT).clean_input
        .STRICT).clean_input
      = (TaskSecurityDomainService.sanitize_task_input x .STRICT).clean_input :=
  TaskSecurityDomainService.sanitize_fix
    (TaskSecurityDomainService.clean_input_allowed x)
    (TaskSecurityDomainService.clean_input_short x)

/-- C1 (code bug): the claim says `check_security_constraints` maps a
non-empty threat list to REJECT/SANITIZE/AUDIT/ALLOW by the highest risk
level.  On the input `alert(1)\x27;` the detectors report two threats (an XSS
HIGH and a SQL-injection CRITICAL), and `_determine_recommended_action` then
raises `TypeError`: Python's `max` compares plain-`Enum` members, which define
no ordering.  The claimed REJECT never happens for any multi-threat check. -/
theorem C1_recommended_action_type_error :
    TaskSecurityDomainService.detect_malicious_payloads (strL "alert(1)\x27;") =
      [⟨"XSS", "XSS攻撃パターンが検出されました", .HIGH⟩,
       ⟨"SQL_INJECTION", "SQLインジェクション攻撃パターンが検出されました", .CRITICAL⟩] ∧
    TaskSecurityDomainService.check_security_constraints (strL "alert(1)\x27;")
        ctxUser123 = .error .typeError := by
  constructor
  · decide
  · decide

set_option maxRecDepth 8192 in
/-- C8 (code bug): the claim says every successfully constructed `TaskName`
is non-empty after trim and at most 100 characters.  The constructor checks
those bounds on the *raw* trimmed input and only then sanitizes, so
`TaskName("javascript:")` succeeds storing the empty string, and one hundred
`&` characters pass the length check and are then HTML-escaped into a stored
value of 500 characters. -/
theorem C8_taskname_invariant_broken :
    TaskName.new (strL "javascript:") = .ok ⟨[]⟩ ∧
    (TaskName.new (List.replicate 100 '&')).map (fun t => t.value.length)
      = .ok 500 := by
  constructor
  · decide
  · decide

/-- C9 (code bug): the claim says structural validation is total and raises
only `ValidationError`, exactly for timestamps later than now + 100 ms.  When
the current clock's microsecond component is at least 900000 the bound
computation `now.replace(microsecond=now.microsecond + 100000)` itself raises
`ValueError` — before the timestamp is even compared (first conjunct, with a
timestamp in the past).  At clocks below that the 100 ms boundary is exact
(second and third conjuncts: now = 0, timestamps 100000 and 100001 µs). -/
theorem C9_structural_validation_value_error :
    CreateTaskCommand.validate_structure 900000 (strL "Buy milk")
        (strL "user-123") none (some 0) = .error (.pyError .valueError) ∧
    CreateTaskCommand.validate_structure 0 (strL "Buy milk")
        (strL "user-123") none (some 100000) = .ok () ∧
    CreateTaskCommand.validate_structure 0 (strL "Buy milk")
        (strL "user-123") none (some 100001)
      = .error (.taskValidation "タイムスタンプは現在時刻以前である必要があります" []) := by
  refine ⟨by decide, by decide, by decide⟩

/-- A stored-and-restored demonstration task for the repository claim. -/
def demoTask : Task :=
  ⟨⟨strL "12345678-1234-1234-1234-123456789abc"⟩, ⟨strL "Buy milk"⟩,
   ⟨.PENDING⟩, 0, 0⟩

/-- An id never saved. -/
def otherId : TaskId := ⟨strL "99999999-9999-4999-8999-999999999999"⟩

/-- C10 (code bug): the claim says that after `save(t)`, `find_by_id` returns
a task with `t`'s id, and `None` for unsaved ids.  Restoration re-runs the
`DateTimeValue` future check, whose bound computation raises `ValueError`
whenever the restore-time clock's microsecond component is ≥ 900000; the
exception is swallowed and `find_by_id` returns `None` for the saved id
(first conjunct, clock at 900000 µs).  At a clock with a small microsecond
component the saved task is found intact (second conjunct), and unsaved ids
give `None` (third and fourth conjuncts). -/
theorem C10_find_after_save_clock_dependent :
    TaskRepositoryImpl.find_by_id 900000 (TaskRepositoryImpl.save [] demoTask)
        demoTask.task_id = none ∧
    TaskRepositoryImpl.find_by_id 0 (TaskRepositoryImpl.save [] demoTask)
        demoTask.task_id = some demoTask ∧
    TaskRepositoryImpl.find_by_id 0 [] demoTask.task_id = none ∧
    TaskRepositoryImpl.find_by_id 0 (TaskRepositoryImpl.save [] demoTask)
        otherId = none := by
  refine ⟨by decide, by decide, by decide, by decide⟩

/-- The SQL-injection probe substring of the spec, `\x27 ; DROP TABLE tasks;`. -/
def sqlSub : Str := strL "\x27 ; DROP TABLE tasks;"

theorem matchWordGap_dropTable_core (b : Str) :
    matchWordGapAt (strL "drop") (strL "table") (strL "DROP TABLE tasks;" ++ b)
      = true := rfl

theorem scanB_dropTable (a b : Str) :
    scanB (matchWordGapAt (strL "drop") (strL "table")) (a ++ (sqlSub ++ b))
      = true := by
  have hsplit : a ++ (sqlSub ++ b)
      = (a ++ strL "\x27 ; ") ++ (strL "DROP TABLE tasks;" ++ b) := by
    have hd : sqlSub = strL "\x27 ; " ++ strL "DROP TABLE tasks;" := by decide
    rw [hd]
    simp [List.append_assoc]
  rw [hsplit]
  exact scanB_suffix _ _ _ (matchWordGap_dropTable_core b)

/-- C2 (amended): a creation request whose name contains
`\x27 ; DROP TABLE tasks;` (and passes the basic prerequisite check: trimmed
name within 100 characters, non-blank user id) is rejected, but the error
payload's code is `VALIDATION_ERROR`, not SECURITY_ERROR: the business-rule
validator's CRITICAL BR-005 SQL violation (`drop\s+table`) aborts creation
before the security domain service ever runs. -/
theorem C2_sql_injection_rejected_with_validation_error
    (a b user rid : Str) (ts : Nat) (env : Env) (st : Storage)
    (hlen : (pyStrip (a ++ (sqlSub ++ b))).length ≤ 100)
    (hu : user ≠ []) (hus : pyStrip user ≠ []) :
    ((create_task env st ⟨a ++ (sqlSub ++ b), user, rid, ts⟩).1).errorCode
      = some .VALIDATION_ERROR := by
  have hmemD : 'D' ∈ a ++ (sqlSub ++ b) :=
    List.mem_append_right a (List.mem_append_left b (by decide : 'D' ∈ sqlSub))
  have hn : (a ++ (sqlSub ++ b)) ≠ [] := by
    intro h
    rw [h] at hmemD
    exact absurd hmemD (List.not_mem_nil 'D')
  have hns : pyStrip (a ++ (sqlSub ++ b)) ≠ [] := pyStrip_ne_nil hmemD (by decide)
  have hpre := prerequisites_true hn hns hlen hu hus
  have hsql : TaskValidationDomainService.anySqlPattern (a ++ (sqlSub ++ b)) = true := by
    simp [TaskValidationDomainService.anySqlPattern, scanB_dropTable a b]
  have hsec : TaskValidationDomainService.validate_security_rules
      (a ++ (sqlSub ++ b)) ≠ [] := by
    simp [TaskValidationDomainService.validate_security_rules, hsql]
  have hval := is_valid_false_of_violations_ne_nil (a ++ (sqlSub ++ b))
    (CreateTaskCommandData.to_creation_context ⟨a ++ (sqlSub ++ b), user, rid, ts⟩)
    (violations_ne_nil_of_security _ _ hsec)
  exact create_task_validation_error env st _ hpre hval

theorem C2_sql_injection_rejected_with_validation_error_witness :
    (pyStrip (([] : Str) ++ (sqlSub ++ []))).length ≤ 100 ∧
    strL "user-123" ≠ [] ∧ pyStrip (strL "user-123") ≠ [] ∧
    ((create_task env0 []
        ⟨([] : Str) ++ (sqlSub ++ []), strL "user-123",
         strL "32345678-1234-4234-8234-123456789abc", 0⟩).1).errorCode
      = some .VALIDATION_ERROR :=
  ⟨by decide, by decide, by decide,
   C2_sql_injection_rejected_with_validation_error [] [] (strL "user-123")
     (strL "32345678-1234-4234-8234-123456789abc") 0 env0 []
     (by decide) (by decide) (by decide)⟩

/-- C2 (counterexample to the claim as stated): for the request named exactly
`\x27 ; DROP TABLE tasks;` by `user-123`, the returned payload's code is
`VALIDATION_ERROR` — not the claimed `SECURITY_ERROR`. -/
theorem C2_counterexample :
    ((create_task env0 [] (mkCmd "\x27 ; DROP TABLE tasks;" "user-123")).1).errorCode
        = some .VALIDATION_ERROR ∧
    ((create_task env0 [] (mkCmd "\x27 ; DROP TABLE tasks;" "user-123")).1).errorCode
        ≠ some .SECURITY_ERROR := by
  refine ⟨by decide, by decide⟩

/-- C3 (amended): for the name `admin access` submitted by any user other
than `admin`/`system`, the permission-constraint detector does report a
MEDIUM `PRIVILEGE_ESCALATION` threat (first conjunct, the detector in
isolation) — but creation does **not** succeed: the business-rule validator
independently flags the reserved word `admin` (a MEDIUM `BR-RESERVED`
violation), any violation invalidates the result, and the request fails with
`VALIDATION_ERROR` before the security service is consulted (second
conjunct).  The only-CRITICAL-blocks policy applies to security threats, not
to validation violations. -/
theorem C3_admin_access_flagged_but_creation_fails
    (user rid : Str) (ts : Nat) (env : Env) (st : Storage)
    (ha : user ≠ strL "admin") (hs : user ≠ strL "system")
    (hu : user ≠ []) (hus : pyStrip user ≠ []) :
    TaskSecurityDomainService.check_permission_constraints (strL "admin access")
        ⟨user, some ts, "web_unknown", some rid⟩ =
      [⟨"PRIVILEGE_ESCALATION",
        "システム管理者用キーワード「admin」の使用が制限されています", .MEDIUM⟩] ∧
    ((create_task env st ⟨strL "admin access", user, rid, ts⟩).1).errorCode
      = some .VALIDATION_ERROR := by
  constructor
  · unfold TaskSecurityDomainService.check_permission_constraints
    rw [if_pos ⟨ha, hs⟩]
    decide
  · have hpre := prerequisites_true
      (show strL "admin access" ≠ [] by decide)
      (by decide) (by decide) hu hus
    have hbus : TaskValidationDomainService.validate_business_rules
        (strL "admin access") ≠ [] := by decide
    have hval := is_valid_false_of_violations_ne_nil (strL "admin access")
      (CreateTaskCommandData.to_creation_context ⟨strL "admin access", user, rid, ts⟩)
      (violations_ne_nil_of_business _ _ hbus)
    exact create_task_validation_error env st _ hpre hval

theorem C3_admin_access_flagged_but_creation_fails_witness :
    strL "user-123" ≠ strL "admin" ∧ strL "user-123" ≠ strL "system" ∧
    strL "user-123" ≠ ([] : Str) ∧ pyStrip (strL "user-123") ≠ [] ∧
    (TaskSecurityDomainService.check_permission_constraints (strL "admin access")
        ⟨strL "user-123", some 0,
         "web_unknown", some (strL "32345678-1234-4234-8234-123456789abc")⟩ =
      [⟨"PRIVILEGE_ESCALATION",
        "システム管理者用キーワード「admin」の使用が制限されています", .MEDIUM⟩] ∧
     ((create_task env0 []
        ⟨strL "admin access", strL "user-123",
         strL "32345678-1234-4234-8234-123456789abc", 0⟩).1).errorCode
      = some .VALIDATION_ERROR) :=
  ⟨by decide, by decide, by decide, by decide,
   C3_admin_access_flagged_but_creation_fails (strL "user-123")
     (strL "32345678-1234-4234-8234-123456789abc") 0 env0 []
     (by decide) (by decide) (by decide) (by decide)⟩

/-- C3 (counterexample to the claim as stated): the claim says creation
nevertheless succeeds for `admin access` by `user-123`; in fact the request
fails, with `VALIDATION_ERROR`. -/
theorem C3_counterexample :
    (create_task env0 [] (mkCmd "admin access" "user-123")).1.isSuccess = false ∧
    ((create_task env0 [] (mkCmd "admin access" "user-123")).1).errorCode
      = some .VALIDATION_ERROR := by
  refine ⟨by decide, by decide⟩

/-- C4 (amended): a whitespace-only (hence non-empty) name fails the basic
prerequisite check of the domain service, which raises
`TaskCreationException`; the application service maps it to an
`INFRASTRUCTURE_ERROR` payload (first conjunct).  `BR-001` is never cited:
the `_validate_basic_rules` check that would cite it is unreachable for such
names.  The empty-string name never reaches the service at all: the command
constructor's structural validation raises a validation exception first
(second conjunct). -/
theorem C4_blank_name_infrastructure_error
    (name user rid : Str) (ts now : Nat) (env : Env) (st : Storage)
    (_hne : name ≠ []) (hws : ∀ c ∈ name, isPySpace c = true) :
    ((create_task env st ⟨name, user, rid, ts⟩).1).errorCode
        = some .INFRASTRUCTURE_ERROR ∧
    CreateTaskCommand.validate_structure now [] user (some rid) (some ts)
      = .error (.taskValidation "タスク名は必須です" []) := by
  constructor
  · have hstrip : pyStrip name = [] := pyStrip_eq_nil_of_all hws
    have hpre : TaskFactory.validate_task_creation_prerequisites name user = false := by
      unfold TaskFactory.validate_task_creation_prerequisites
      by_cases h : name = [] ∨ user = []
      · rw [if_pos h]
      · rw [if_neg h, if_pos (Or.inl (by rw [hstrip]; rfl))]
    exact create_task_infrastructure_error env st _ hpre
  · unfold CreateTaskCommand.validate_structure
    rw [if_pos rfl]

theorem C4_blank_name_infrastructure_error_witness :
    strL " " ≠ ([] : Str) ∧ (∀ c ∈ strL " ", isPySpace c = true) ∧
    (((create_task env0 [] (mkCmd " " "user-123")).1).errorCode
        = some .INFRASTRUCTURE_ERROR ∧
     CreateTaskCommand.validate_structure 0 [] (strL "user-123")
        (some (strL "32345678-1234-4234-8234-123456789abc")) (some 0)
      = .error (.taskValidation "タスク名は必須です" [])) :=
  ⟨by decide, by decide,
   C4_blank_name_infrastructure_error (strL " ") (strL "user-123")
     (strL "32345678-1234-4234-8234-123456789abc") 0 0 env0 []
     (by decide) (by decide)⟩

/-- C4 (counterexample to the claim as stated): for the whitespace-only name
`" "` the error payload's code is `INFRASTRUCTURE_ERROR`, not the claimed
`BUSINESS_RULE_VIOLATION`, and no detail cites BR-001. -/
theorem C4_counterexample :
    ((create_task env0 [] (mkCmd " " "user-123")).1).errorCode
        = some .INFRASTRUCTURE_ERROR ∧
    ((create_task env0 [] (mkCmd " " "user-123")).1).errorCode
        ≠ some .BUSINESS_RULE_VIOLATION := by
  refine ⟨by decide, by decide⟩

/-- C6 (amended): any text containing `<script>alert(1)</script>` is flagged
as an XSS threat by `_detect_malicious_payloads` (first conjunct).  But the
sanitizer does not remove the script block entirely: it HTML-escapes first, so
the script-removal regex (which needs a literal `<`) never fires, and the
STRICT character filter then drops only the `&`, `;` and `/` artifacts —
leaving `ltscriptgtalert(1)ltscriptgt`, which still contains the parts
`alert(1)` and `script` of the block (second and third conjuncts). -/
theorem C6_xss_flagged_but_script_text_survives :
    (∀ a b : Str,
      (⟨"XSS", "XSS攻撃パターンが検出されました", .HIGH⟩ : SecurityThreat) ∈
        TaskSecurityDomainService.detect_malicious_payloads
          (a ++ (strL "<script>alert(1)</script>" ++ b))) ∧
    (TaskSecurityDomainService.sanitize_task_input
        (strL "<script>alert(1)</script>") .STRICT).clean_input
      = strL "ltscriptgtalert(1)ltscriptgt" ∧
    containsSub (strL "alert(1)") (strL "ltscriptgtalert(1)ltscriptgt") = true := by
  refine ⟨?_, by decide, by decide⟩
  intro a b
  have hopen : (fun s => (matchOpenTagAt (strL "<script") s).isSome)
      (strL "<script>alert(1)</script>" ++ b) = true := rfl
  have hscan : scanB (fun s => (matchOpenTagAt (strL "<script") s).isSome)
      (a ++ (strL "<script>alert(1)</script>" ++ b)) = true :=
    scanB_suffix _ a _ hopen
  simp [TaskSecurityDomainService.detect_malicious_payloads, hscan]

/-- C6 (counterexample to the claim as stated): the sanitizer's output on
`<script>alert(1)</script>` still contains the parts `alert(1)` and `script`
of the script block — the block is not removed entirely. -/
theorem C6_counterexample :
    containsSub (strL "alert(1)")
      (TaskSecurityDomainService.sanitize_task_input
        (strL "<script>alert(1)</script>") .STRICT).clean_input = true ∧
    containsSub (strL "script")
      (TaskSecurityDomainService.sanitize_task_input
        (strL "<script>alert(1)</script>") .STRICT).clean_input = true := by
  refine ⟨by decide, by decide⟩

/-- C5 (counterexample to the claim as stated): on the concrete run `env0`
(clock reads 3 then 5), creating `Prepare meeting slides` for `user-123`
succeeds, but the returned status string is `未完了` — the Japanese enum value
of the PENDING member — not the claimed tag `pending`; and the persisted
task's createdAt (3) differs from its updatedAt (5), because `Task.create`
takes two separate `datetime.now()` reads. -/
theorem C5_counterexample :
    (create_task env0 [] (mkCmd "Prepare meeting slides" "user-123")).1.statusString
        = some "未完了" ∧
    (create_task env0 [] (mkCmd "Prepare meeting slides" "user-123")).1.statusString
        ≠ some "pending" ∧
    (create_task env0 [] (mkCmd "Prepare meeting slides" "user-123")).2
        = [(env0.freshTaskUuid,
            ⟨env0.freshTaskUuid, strL "Prepare meeting slides", "未完了", 3, 5⟩)] := by
  refine ⟨by decide, by decide, by decide⟩

/-- C5 (amended): for the request `Prepare meeting slides` by `user-123`,
whatever storage, request id, command timestamp, clock reads (monotone:
created ≤ updated) and uuid4 draws (the task id draw in UUID format, the
event id draw non-empty) the run takes, creation succeeds and the success
payload carries the generated task id (hence a UUID) and the first clock
read; the status string is `未完了` (the PENDING member's value, not the tag
`pending`), and the persisted record holds createdAt = first read and
updatedAt = second read — equal only when the two reads coincide. -/
theorem C5_creation_succeeds_with_pending_status
    (env : Env) (st : Storage) (rid : Str) (ts : Nat)
    (hU : uuidParses env.freshTaskUuid = true) (hE : env.eventUuid ≠ [])
    (hT : env.tickCreated ≤ env.tickUpdated) :
    (create_task env st ⟨strL "Prepare meeting slides", strL "user-123", rid, ts⟩).1
        = .success
            { task_id := env.freshTaskUuid
              task_name := strL "Prepare meeting slides"
              status := "未完了"
              created_at := env.tickCreated
              message := "タスクが正常に追加されました"
              request_id := some rid } ∧
    (create_task env st ⟨strL "Prepare meeting slides", strL "user-123", rid, ts⟩).2
        = dictInsert env.freshTaskUuid
            ⟨env.freshTaskUuid, strL "Prepare meeting slides", "未完了",
             env.tickCreated, env.tickUpdated⟩ st := by
  have hne : env.freshTaskUuid ≠ [] := uuidParses_ne_nil hU
  have hid : TaskId.new env.freshTaskUuid = .ok ⟨env.freshTaskUuid⟩ := by
    unfold TaskId.new
    rw [if_neg hne, if_pos hU]
  have htask : TaskFactory.create_task env (strL "Prepare meeting slides")
      = .ok ⟨⟨env.freshTaskUuid⟩, ⟨strL "Prepare meeting slides"⟩, ⟨.PENDING⟩,
             env.tickCreated, env.tickUpdated⟩ := by
    have h1 : TaskFactory.create_task env (strL "Prepare meeting slides")
        = (match Task.create env.freshTaskUuid env.tickCreated env.tickUpdated
              ⟨strL "Prepare meeting slides"⟩ with
           | .ok t => Except.ok t
           | .error e =>
             Except.error (.taskCreation ("タスク作成に失敗しました: " ++ e.message))) := rfl
    rw [h1]
    unfold Task.create
    rw [hid]
    show (match Task.mkChecked ⟨env.freshTaskUuid⟩ ⟨strL "Prepare meeting slides"⟩
            TaskStatus.pending env.tickCreated env.tickUpdated with
          | .ok t => Except.ok t
          | .error e =>
            Except.error (DomainExc.taskCreation ("タスク作成に失敗しました: " ++ e.message)))
        = Except.ok ⟨⟨env.freshTaskUuid⟩, ⟨strL "Prepare meeting slides"⟩, ⟨.PENDING⟩,
            env.tickCreated, env.tickUpdated⟩
    unfold Task.mkChecked
    rw [if_neg (Nat.not_lt.mpr hT)]
    rfl
  have hwe : TaskFactory.create_task_with_event env
      (strL "Prepare meeting slides") (strL "user-123")
      = .ok { task := ⟨⟨env.freshTaskUuid⟩, ⟨strL "Prepare meeting slides"⟩,
                       ⟨.PENDING⟩, env.tickCreated, env.tickUpdated⟩
              event := ⟨env.eventUuid, env.freshTaskUuid,
                        strL "Prepare meeting slides", strL "user-123",
                        env.tickCreated, env.tickEvent⟩
              success := true
              created_at := env.tickCreated } := by
    unfold TaskFactory.create_task_with_event
    rw [htask]
    rfl
  have hdom : TaskCreationDomainService.create_new_task env
      (strL "Prepare meeting slides")
      (CreateTaskCommandData.to_creation_context
        ⟨strL "Prepare meeting slides", strL "user-123", rid, ts⟩)
      = .ok { task := ⟨⟨env.freshTaskUuid⟩, ⟨strL "Prepare meeting slides"⟩,
                       ⟨.PENDING⟩, env.tickCreated, env.tickUpdated⟩
              event := ⟨env.eventUuid, env.freshTaskUuid,
                        strL "Prepare meeting slides", strL "user-123",
                        env.tickCreated, env.tickEvent⟩
              success := true
              created_at := env.tickCreated } := by
    unfold TaskCreationDomainService.create_new_task
    rw [show TaskCreationDomainService.create_new_task_body env
          (strL "Prepare meeting slides")
          (CreateTaskCommandData.to_creation_context
            ⟨strL "Prepare meeting slides", strL "user-123", rid, ts⟩)
        = TaskFactory.create_task_with_event env (strL "Prepare meeting slides")
            (strL "user-123") from rfl, hwe]
  have hresp : CreateTaskResponse.from_task_creation_result
      { task := ⟨⟨env.freshTaskUuid⟩, ⟨strL "Prepare meeting slides"⟩,
                 ⟨.PENDING⟩, env.tickCreated, env.tickUpdated⟩
        event := ⟨env.eventUuid, env.freshTaskUuid,
                  strL "Prepare meeting slides", strL "user-123",
                  env.tickCreated, env.tickEvent⟩
        success := true
        created_at := env.tickCreated } (some rid)
      = .ok { task_id := env.freshTaskUuid
              task_name := strL "Prepare meeting slides"
              status := "未完了"
              created_at := env.tickCreated
              message := "タスクが正常に追加されました"
              request_id := some rid } := by
    unfold CreateTaskResponse.from_task_creation_result
    dsimp only
    rw [if_neg (by
      push_neg
      exact ⟨hne, by decide, by decide, by decide⟩), if_pos hU]
    rfl
  unfold create_task
  rw [hdom]
  dsimp only
  rw [if_neg hE, hresp]
  exact ⟨rfl, rfl⟩

theorem C5_creation_succeeds_with_pending_status_witness :
    uuidParses env0.freshTaskUuid = true ∧ env0.eventUuid ≠ [] ∧
    env0.tickCreated ≤ env0.tickUpdated ∧
    ((create_task env0 []
        ⟨strL "Prepare meeting slides", strL "user-123",
         strL "32345678-1234-4234-8234-123456789abc", 0⟩).1
        = .success
            { task_id := env0.freshTaskUuid
              task_name := strL "Prepare meeting slides"
              status := "未完了"
              created_at := env0.tickCreated
              message := "タスクが正常に追加されました"
              request_id := some (strL "32345678-1234-4234-8234-123456789abc") } ∧
     (create_task env0 []
        ⟨strL "Prepare meeting slides", strL "user-123",
         strL "32345678-1234-4234-8234-123456789abc", 0⟩).2
        = dictInsert env0.freshTaskUuid
            ⟨env0.freshTaskUuid, strL "Prepare meeting slides", "未完了",
             env0.tickCreated, env0.tickUpdated⟩ []) :=
  ⟨by decide, by decide, by decide,
   C5_creation_succeeds_with_pending_status env0 []
     (strL "32345678-1234-4234-8234-123456789abc") 0
     (by decide) (by decide) (by decide)⟩

end TaskMgmt
